import Mathlib

/-!
Shallow embedding of the BLT-MCP server core (src/index.ts): identifier and
argument validation, the API client's failure classification, the tool
dispatcher, the resource router and the prompt renderer.  JavaScript runtime
values are modelled by the inductive `JsValue`; JavaScript numbers are
idealised as rationals extended with NaN and the two infinities (`JsNum`).
Outbound HTTP effects are modelled by passing an oracle
`ApiRequest → Except JsError JsValue` (the result of `makeApiRequest`) to the
handlers, and every handler additionally returns the list of outbound
requests it issued, so that call-shape properties can be stated.
-/

/-- Idealised JavaScript number: a rational (doubles are embedded in ℚ;
rounding is not modelled), NaN, or one of the two infinities. -/
inductive JsNum where
  | finite (q : ℚ)
  | nan
  | posInf
  | negInf
deriving DecidableEq

/-- A JavaScript runtime value, as far as the server manipulates them. -/
inductive JsValue where
  | undefined
  | null
  | bool (b : Bool)
  | num (n : JsNum)
  | str (s : String)
  | obj (fields : List (String × JsValue))
  | arr (elems : List JsValue)

/-- The thrown-error taxonomy of the source: `ValidationError`,
`ApiTimeoutError`, `ApiHttpError` (carrying status and status text),
`ApiNetworkError`, and plain `Error`.  Each carries its `message`. -/
inductive JsError where
  | validation (message : String)
  | apiTimeout (message : String)
  | apiHttp (status : Nat) (statusText : String) (message : String)
  | apiNetwork (message : String)
  | generic (message : String)
deriving DecidableEq

def errMessage : JsError → String
  | .validation m => m
  | .apiTimeout m => m
  | .apiHttp _ _ m => m
  | .apiNetwork m => m
  | .generic m => m

/-- The label the tool dispatcher's catch block puts in front of the
message, derived from the error class (lines 605-610 of the source). -/
def errorLabel : JsError → String
  | .validation _ => "Validation error"
  | .apiTimeout _ => "Timeout error"
  | .apiHttp st _ _ => "HTTP " ++ toString st ++ " error"
  | .apiNetwork _ => "Network error"
  | .generic _ => "Error"

/-- One outbound call of the API client, before serialisation: the path
appended to the base URL, the HTTP method, and the structured JSON body. -/
structure ApiRequest where
  endpoint : String
  method : String
  body : Option (List (String × JsValue))

/-- The content result a tool call returns: a list of text blocks and the
error flag (`isError` is absent, i.e. false, on success). -/
structure ToolResult where
  content : List String
  isError : Bool

/-- The contents entry a resource read returns. -/
structure ReadResult where
  uri : String
  mimeType : String
  text : String

/-- One rendered prompt message (role is always "user" in this server). -/
structure PromptMessage where
  role : String
  text : String

/-! ### Character classes, `String.prototype.trim`, and the safe-id regex -/

/-- Code points removed by `String.prototype.trim`: ECMAScript WhiteSpace
(TAB VT FF SP NBSP ZWNBSP and the Zs category) plus LineTerminator. -/
def wsCodes : List Nat :=
  [9, 10, 11, 12, 13, 32, 160, 5760, 8192, 8193, 8194, 8195, 8196, 8197,
   8198, 8199, 8200, 8201, 8202, 8232, 8233, 8239, 8287, 12288, 65279]

def jsIsWs (c : Char) : Bool := decide (c.toNat ∈ wsCodes)

def trimChars (l : List Char) : List Char :=
  ((l.dropWhile jsIsWs).reverse.dropWhile jsIsWs).reverse

/-- Model of `s.trim()`. -/
def jsTrim (s : String) : String := ⟨trimChars s.data⟩

/-- The character class of the guard regex `[a-zA-Z0-9_-]`. -/
def safeChar (c : Char) : Bool :=
  (65 ≤ c.toNat && c.toNat ≤ 90) || (97 ≤ c.toNat && c.toNat ≤ 122) ||
  (48 ≤ c.toNat && c.toNat ≤ 57) || c.toNat = 95 || c.toNat = 45

/-- Model of `/^[a-zA-Z0-9_-]+$/.test s` (anchored, no multiline flag:
the whole string is one nonempty run of safe characters). -/
def safeIdTest (s : String) : Bool := !s.isEmpty && s.data.all safeChar

/-- `assertSafeId` (source lines 76-86): rejects non-strings and blank
strings, then rejects any string not matching the safe-id regex, and
returns the input itself (not trimmed) otherwise. -/
def assertSafeId (id : JsValue) (fieldName : String) : Except JsError String :=
  match id with
  | .str s =>
      if jsTrim s = "" then
        .error (.validation (fieldName ++ " must be a non-empty string"))
      else if safeIdTest s then .ok s
      else
        .error (.validation (fieldName ++
          " contains invalid characters. Only alphanumeric, hyphen, and underscore are allowed."))
  | _ => .error (.validation (fieldName ++ " must be a non-empty string"))

/-! ### Field access and truthiness -/

def isUndef : JsValue → Bool
  | .undefined => true
  | _ => false

def isNull : JsValue → Bool
  | .null => true
  | _ => false

def isNullOrUndef : JsValue → Bool
  | .null => true
  | .undefined => true
  | _ => false

/-- Model of `args[field]` on the raw argument value.  JavaScript objects
cannot carry duplicate keys, so lists with duplicated field names have no
JavaScript counterpart; `lookup` takes the first binding.  Property reads
on arrays and primitives yield `undefined` for the (non-index) field names
this server uses. -/
def getField (v : JsValue) (field : String) : JsValue :=
  match v with
  | .obj fields => (fields.lookup field).getD .undefined
  | _ => .undefined

def jsTypeof : JsValue → String
  | .str _ => "string"
  | .num _ => "number"
  | .bool _ => "boolean"
  | .undefined => "undefined"
  | .null => "object"
  | .obj _ => "object"
  | .arr _ => "object"

def jsTruthy : JsValue → Bool
  | .undefined => false
  | .null => false
  | .bool b => b
  | .num (.finite q) => decide (q ≠ 0)
  | .num .nan => false
  | .num _ => true
  | .str s => !s.isEmpty
  | .obj _ => true
  | .arr _ => true

/-! ### Number coercion (`Number(value)`) -/

def isDecDigit (c : Char) : Bool := 48 ≤ c.toNat && c.toNat ≤ 57

def isHexDigit (c : Char) : Bool :=
  isDecDigit c || (97 ≤ c.toNat && c.toNat ≤ 102) || (65 ≤ c.toNat && c.toNat ≤ 70)

def isOctDigit (c : Char) : Bool := 48 ≤ c.toNat && c.toNat ≤ 55

def isBinDigit (c : Char) : Bool := c.toNat == 48 || c.toNat == 49

def decVal (l : List Char) : Nat := l.foldl (fun a c => a * 10 + (c.toNat - 48)) 0

def hexDigitVal (c : Char) : Nat :=
  if c.toNat ≤ 57 then c.toNat - 48
  else if c.toNat ≤ 70 then c.toNat - 55
  else c.toNat - 87

def hexVal (l : List Char) : Nat := l.foldl (fun a c => a * 16 + hexDigitVal c) 0

def octVal (l : List Char) : Nat := l.foldl (fun a c => a * 8 + (c.toNat - 48)) 0

def binVal (l : List Char) : Nat := l.foldl (fun a c => a * 2 + (c.toNat - 48)) 0

/-- Exponent part of a string numeric literal: empty, or `e`/`E` with an
optionally signed nonempty digit run. -/
def parseExpPart : List Char → Option Int
  | [] => some 0
  | c :: rest =>
    if c == 'e' || c == 'E' then
      match rest with
      | '+' :: ds =>
          if ds ≠ [] ∧ ds.all isDecDigit then some (Int.ofNat (decVal ds)) else none
      | '-' :: ds =>
          if ds ≠ [] ∧ ds.all isDecDigit then some (-(Int.ofNat (decVal ds))) else none
      | ds => if ds ≠ [] ∧ ds.all isDecDigit then some (Int.ofNat (decVal ds)) else none
    else none

/-- Unsigned decimal literal: `D+ [. D*] [exp]` or `. D+ [exp]`. -/
def parseUnsignedDec (cs : List Char) : Option ℚ :=
  let p := cs.span isDecDigit
  match p.2 with
  | '.' :: r2 =>
    let p2 := r2.span isDecDigit
    if p.1.isEmpty && p2.1.isEmpty then none
    else
      (parseExpPart p2.2).map fun e =>
        ((decVal p.1 : ℚ) + (decVal p2.1 : ℚ) / (10 : ℚ) ^ p2.1.length) * (10 : ℚ) ^ e
  | _ =>
    if p.1.isEmpty then none
    else (parseExpPart p.2).map fun e => (decVal p.1 : ℚ) * (10 : ℚ) ^ e

/-- Unsigned literal in a signed position: `Infinity` or a decimal literal
(radix-marked literals may not take a sign). -/
def unsignedNoHexNum (cs : List Char) : JsNum :=
  if cs = "Infinity".data then .posInf
  else match parseUnsignedDec cs with
    | some q => .finite q
    | none => .nan

/-- Unsigned literal at the start of the string: `Infinity`, a hex / octal /
binary literal, or a decimal literal. -/
def unsignedFull (cs : List Char) : JsNum :=
  if cs = "Infinity".data then .posInf
  else match cs with
  | '0' :: c :: rest =>
    if c == 'x' || c == 'X' then
      if rest ≠ [] ∧ rest.all isHexDigit then .finite (hexVal rest : ℚ) else .nan
    else if c == 'o' || c == 'O' then
      if rest ≠ [] ∧ rest.all isOctDigit then .finite (octVal rest : ℚ) else .nan
    else if c == 'b' || c == 'B' then
      if rest ≠ [] ∧ rest.all isBinDigit then .finite (binVal rest : ℚ) else .nan
    else match parseUnsignedDec cs with
      | some q => .finite q
      | none => .nan
  | _ => match parseUnsignedDec cs with
    | some q => .finite q
    | none => .nan

/-- ECMAScript StringToNumber: whitespace-trimmed; empty means 0; otherwise
an optionally signed numeric literal, anything else is NaN. -/
def strToNumber (s : String) : JsNum :=
  match (jsTrim s).data with
  | [] => .finite 0
  | '+' :: rest => unsignedNoHexNum rest
  | '-' :: rest =>
    match unsignedNoHexNum rest with
    | .posInf => .negInf
    | .finite q => .finite (-q)
    | _ => .nan
  | cs => unsignedFull cs

/-! Decimal rendering of an idealised number (`String(n)` / JSON).  Doubles
always have a finite decimal expansion (denominator a power of two), which
is what the search below produces; the shortest-round-trip and
exponent-notation refinements of JavaScript formatting are not modelled,
and the fraction fallback is unreachable for values a double can hold. -/

def padLeftZeros (s : String) (k : Nat) : String :=
  ⟨List.replicate (k - s.length) '0' ++ s.data⟩

def stripTrailingZeros (s : String) : String :=
  ⟨(s.data.reverse.dropWhile (fun c => c == '0')).reverse⟩

def ratDecimalRepr (q : ℚ) : String :=
  let sign := if q < 0 then "-" else ""
  let n := q.num.natAbs
  let d := q.den
  match (List.range 65).find? (fun k => 10 ^ k % d == 0) with
  | some k =>
      let scaled := n * 10 ^ k / d
      let ip := scaled / 10 ^ k
      let fp := scaled % 10 ^ k
      if fp = 0 then sign ++ toString ip
      else sign ++ toString ip ++ "." ++ stripTrailingZeros (padLeftZeros (toString fp) k)
  | none => sign ++ toString n ++ "/" ++ toString d

/-- `String(n)` for a number. -/
def jsNumToString : JsNum → String
  | .finite q => ratDecimalRepr q
  | .nan => "NaN"
  | .posInf => "Infinity"
  | .negInf => "-Infinity"

/-- Number rendering inside `JSON.stringify` (non-finite serialises as null). -/
def jsonNumToString : JsNum → String
  | .finite q => ratDecimalRepr q
  | _ => "null"

/-! `String(v)` of a value: array elements join with commas, nested null and
undefined elements render empty, plain objects render "[object Object]". -/
mutual
def jsToDisplayString : JsValue → String
  | .str s => s
  | .num n => jsNumToString n
  | .bool b => if b then "true" else "false"
  | .null => "null"
  | .undefined => "undefined"
  | .obj _ => "[object Object]"
  | .arr xs => joinArr xs
def joinArr : List JsValue → String
  | [] => ""
  | x :: rest =>
    (if isNullOrUndef x then "" else jsToDisplayString x) ++
      (if rest.isEmpty then "" else ",") ++ joinArr rest
end

/-- ECMAScript ToNumber: undefined is NaN, null is 0, booleans are 0/1,
strings go through StringToNumber, plain objects coerce (via
"[object Object]") to NaN, arrays coerce through their joined string. -/
def jsToNumber : JsValue → JsNum
  | .undefined => .nan
  | .null => .finite 0
  | .bool b => .finite (if b then 1 else 0)
  | .num n => n
  | .str s => strToNumber s
  | .obj _ => .nan
  | .arr xs => strToNumber (joinArr xs)

def isNanB : JsNum → Bool
  | .nan => true
  | _ => false

def jsNumIsFinite : JsNum → Bool
  | .finite _ => true
  | _ => false

/-- JavaScript `<=` on numbers: false whenever either side is NaN. -/
def jsLe : JsNum → JsNum → Bool
  | .nan, _ => false
  | _, .nan => false
  | .negInf, _ => true
  | .finite _, .negInf => false
  | .posInf, .negInf => false
  | _, .posInf => true
  | .posInf, .finite _ => false
  | .finite a, .finite b => decide (a ≤ b)

/-! ### JSON serialisation (`JSON.stringify`).  The two-space indentation
argument of the pretty-printed call sites only inserts whitespace and is
not modelled; fields whose value is `undefined`, which cannot occur in
parsed JSON responses, serialise here as null rather than being omitted. -/

def escChar (c : Char) : String :=
  if c == '"' then "\\\""
  else if c == '\\' then "\\\\"
  else if c == '\n' then "\\n"
  else if c == '\r' then "\\r"
  else if c == '\t' then "\\t"
  else String.singleton c

def jsonQuote (s : String) : String :=
  "\"" ++ String.join (s.data.map escChar) ++ "\""

mutual
def jsonStringify : JsValue → String
  | .undefined => "null"
  | .null => "null"
  | .bool b => if b then "true" else "false"
  | .num n => jsonNumToString n
  | .str s => jsonQuote s
  | .obj fs => "\x7b" ++ jsonFieldsStr fs ++ "\x7d"
  | .arr xs => "[" ++ jsonElemsStr xs ++ "]"
def jsonFieldsStr : List (String × JsValue) → String
  | [] => ""
  | (k, v) :: rest =>
    jsonQuote k ++ ":" ++ jsonStringify v ++
      (if rest.isEmpty then "" else ",") ++ jsonFieldsStr rest
def jsonElemsStr : List JsValue → String
  | [] => ""
  | v :: rest =>
    jsonStringify v ++ (if rest.isEmpty then "" else ",") ++ jsonElemsStr rest
end

/-! ### Argument validators (source lines 92-122) -/

/-- `assertRequiredString`: missing or null fails; non-string or
blank-after-trim fails; otherwise the trimmed string is returned. -/
def assertRequiredString (args : JsValue) (field : String) : Except JsError String :=
  let value := getField args field
  if isUndef value || isNull value then
    .error (.validation ("Missing required argument: \"" ++ field ++ "\""))
  else match value with
    | .str s =>
        if jsTrim s = "" then
          .error (.validation ("\"" ++ field ++ "\" must be a non-empty string"))
        else .ok (jsTrim s)
    | _ => .error (.validation ("\"" ++ field ++ "\" must be a non-empty string"))

/-- `assertRequiredNumber`: missing or null fails; then the value is
coerced with `Number(...)` and only NaN is rejected. -/
def assertRequiredNumber (args : JsValue) (field : String) : Except JsError JsNum :=
  let value := getField args field
  if isUndef value || isNull value then
    .error (.validation ("Missing required argument: \"" ++ field ++ "\""))
  else
    let num := jsToNumber value
    if isNanB num then
      .error (.validation ("\"" ++ field ++ "\" must be a valid number"))
    else .ok num

/-- `assertOptionalString`: absent or null yields `undefined` (`none`);
a non-string fails; otherwise `value.trim() || undefined`, i.e. the
trimmed string, or `none` when it trims to empty. -/
def assertOptionalString (args : JsValue) (field : String) : Except JsError (Option String) :=
  let value := getField args field
  if isUndef value || isNull value then .ok none
  else match value with
    | .str s => .ok (if jsTrim s = "" then none else some (jsTrim s))
    | _ => .error (.validation ("\"" ++ field ++ "\" must be a string"))

/-! ### API client (`makeApiRequest`, source lines 136-186) -/

/-- The request handed to `fetch`: the concatenated URL, the method, the
header list, and the serialised body (attached only for non-GET calls). -/
structure FetchCall where
  url : String
  method : String
  headers : List (String × String)
  body : Option String

/-- What `fetch` did: threw a value (with its `instanceof Error` status,
`name` and rendered message), or produced a response with a status code,
status text, and parsed JSON body. -/
inductive FetchResult where
  | threw (isErrorInstance : Bool) (name : String) (message : String)
  | response (status : Nat) (statusText : String) (body : JsValue)

def buildHeaders (apiKey : String) : List (String × String) :=
  [("Content-Type", "application/json"), ("Accept", "application/json")] ++
    (if apiKey ≠ "" then [("Authorization", "Bearer " ++ apiKey)] else [])

def buildFetchCall (apiBase apiKey endpoint method : String)
    (body : Option (List (String × JsValue))) : FetchCall :=
  ⟨apiBase ++ endpoint, method, buildHeaders apiKey,
    match body with
    | some b => if method ≠ "GET" then some (jsonStringify (.obj b)) else none
    | none => none⟩

/-- `makeApiRequest`: performs one fetch (modelled by the `fetchFn` oracle)
and classifies the outcome.  An abort (an `Error` named "AbortError")
becomes `ApiTimeoutError`; any other thrown value becomes
`ApiNetworkError`; a response outside 200-299 becomes `ApiHttpError`
carrying status and status text; otherwise the parsed JSON is returned.
The fixed timeout is 10000 ms. -/
def makeApiRequest (apiBase apiKey endpoint method : String)
    (body : Option (List (String × JsValue)))
    (fetchFn : FetchCall → FetchResult) : Except JsError JsValue :=
  match fetchFn (buildFetchCall apiBase apiKey endpoint method body) with
  | .threw isE nm msg =>
      if isE = true ∧ nm = "AbortError" then
        .error (.apiTimeout ("Request to " ++ endpoint ++ " timed out after 10000ms"))
      else
        .error (.apiNetwork ("Network failure reaching " ++ endpoint ++ ": " ++ msg))
  | .response st stx b =>
      if 200 ≤ st ∧ st ≤ 299 then .ok b
      else .error (.apiHttp st stx ("HTTP " ++ toString st ++ " " ++ stx ++ " — " ++ endpoint))

/-- The oracle the handlers receive: the outcome of `makeApiRequest` for a
structured request, with the configuration and fetch behaviour fixed. -/
def apiOf (apiBase apiKey : String) (fetchFn : FetchCall → FetchResult)
    (req : ApiRequest) : Except JsError JsValue :=
  makeApiRequest apiBase apiKey req.endpoint req.method req.body fetchFn

/-! ### Tool dispatcher (source lines 466-622) -/

def validSeverities : List String := ["low", "medium", "high", "critical"]

def validTypes : List String := ["bug", "vulnerability", "feature", "other"]

def validStatuses : List String := ["open", "in_progress", "resolved", "closed", "wont_fix"]

/-- The `submit_issue` branch up to its single outbound call: runtime
validation of every field, enum checks, and the body merge
`... (repoId && (repo_id : repoId))`. -/
def submitIssueReq (args : JsValue) : Except JsError ApiRequest := do
  let title ← assertRequiredString args ("title")
  let description ← assertRequiredString args ("description")
  let repoId ← assertOptionalString args ("repo_id")
  let severity ← assertRequiredString args ("severity")
  let ty ← assertRequiredString args ("type")
  if (validSeverities.contains severity) = false then
    Except.error (.validation ("\"severity\" must be one of: low, medium, high, critical"))
  else if (validTypes.contains ty) = false then
    Except.error (.validation ("\"type\" must be one of: bug, vulnerability, feature, other"))
  else
    Except.ok ⟨"/issues", "POST",
      some ([(("title" : String), JsValue.str title),
             (("description" : String), JsValue.str description)] ++
        (match repoId with
         | some r => [(("repo_id" : String), JsValue.str r)]
         | none => []) ++
        [(("severity" : String), JsValue.str severity),
         (("type" : String), JsValue.str ty)])⟩

/-- The `award_bacon` branch up to its single outbound call: field
validation, the positive-points guard, the safe-id guard on
`contributor_id`, and the sub-resource endpoint. -/
def awardBaconReq (args : JsValue) : Except JsError ApiRequest := do
  let rawContributorId ← assertRequiredString args ("contributor_id")
  let points ← assertRequiredNumber args ("points")
  let reason ← assertRequiredString args ("reason")
  if jsLe points (.finite 0) = true then
    Except.error (.validation ("\"points\" must be a positive number"))
  else do
    let contributorId ← assertSafeId (.str rawContributorId) ("contributor_id")
    Except.ok ⟨"/contributors/" ++ contributorId ++ "/rewards", "POST",
      some [(("points" : String), JsValue.num points),
            (("reason" : String), JsValue.str reason)]⟩

/-- The `update_issue_status` branch up to its single outbound call. -/
def updateIssueStatusReq (args : JsValue) : Except JsError ApiRequest := do
  let rawIssueId ← assertRequiredString args ("issue_id")
  let status ← assertRequiredString args ("status")
  let comment ← assertOptionalString args ("comment")
  if (validStatuses.contains status) = false then
    Except.error (.validation
      ("\"status\" must be one of: open, in_progress, resolved, closed, wont_fix"))
  else do
    let issueId ← assertSafeId (.str rawIssueId) ("issue_id")
    Except.ok ⟨"/issues/" ++ issueId, "PATCH",
      some ([(("status" : String), JsValue.str status)] ++
        (match comment with
         | some c => [(("comment" : String), JsValue.str c)]
         | none => []))⟩

/-- The `add_comment` branch up to its single outbound call. -/
def addCommentReq (args : JsValue) : Except JsError ApiRequest := do
  let rawIssueId ← assertRequiredString args ("issue_id")
  let comment ← assertRequiredString args ("comment")
  let issueId ← assertSafeId (.str rawIssueId) ("issue_id")
  Except.ok ⟨"/issues/" ++ issueId ++ "/comments", "POST",
    some [(("comment" : String), JsValue.str comment)]⟩

/-- Issues a validated request through the API oracle and wraps a success
as a single serialised text block; also reports the outbound trace. -/
def runTool (req : Except JsError ApiRequest)
    (api : ApiRequest → Except JsError JsValue) :
    Except JsError ToolResult × List ApiRequest :=
  match req with
  | .error e => (.error e, [])
  | .ok r => ((api r).map fun d => ⟨[jsonStringify d], false⟩, [r])

/-- The catch block at the dispatcher boundary: a value returned by the
switch passes through; a thrown failure becomes an error-flagged text
block prefixed with the label of its kind. -/
def toolCatch (step : Except JsError ToolResult × List ApiRequest) :
    ToolResult × List ApiRequest :=
  (match step.1 with
   | .ok r => r
   | .error e => ⟨[errorLabel e ++ ": " ++ errMessage e], true⟩, step.2)

/-- The CallTool handler: the missing-arguments guard, the dispatch on the
tool name (unknown names return an error-flagged result rather than
throwing), and the catch-all that renders any thrown failure as an
error-flagged text block labelled by the failure kind.  The second
component is the list of outbound API calls issued. -/
def callTool (name : String) (args : JsValue)
    (api : ApiRequest → Except JsError JsValue) : ToolResult × List ApiRequest :=
  if jsTruthy args = false ∨ jsTypeof args ≠ "object" then
    (⟨["Error: Missing required arguments"], true⟩, [])
  else
    toolCatch
      (if name = "submit_issue" then runTool (submitIssueReq args) api
       else if name = "award_bacon" then runTool (awardBaconReq args) api
       else if name = "update_issue_status" then runTool (updateIssueStatusReq args) api
       else if name = "add_comment" then runTool (addCommentReq args) api
       else (.ok ⟨["Error: Unknown tool \"" ++ name ++ "\""], true⟩, []))

/-! ### Resource router (source lines 269-346) -/

/-- LineTerminator code points, which `.` of the URI regex cannot match. -/
def isLineTerm (c : Char) : Bool :=
  c.toNat == 10 || c.toNat == 13 || c.toNat == 8232 || c.toNat == 8233

/-- The part of the URI match after the scheme: the type segment is the
maximal nonempty slash-free run, and the optional identifier group takes
everything after the following slash, which must be nonempty and free of
line terminators for `.+` to reach the end of the anchored pattern. -/
def parseTypeId (rest : List Char) : Option (String × Option String) :=
  if (rest.takeWhile (fun c => !(c == '/'))).isEmpty then none
  else match rest.dropWhile (fun c => !(c == '/')) with
    | [] => some (⟨rest.takeWhile (fun c => !(c == '/'))⟩, none)
    | _ :: tail =>
      if tail.isEmpty || tail.any isLineTerm then none
      else some (⟨rest.takeWhile (fun c => !(c == '/'))⟩, some ⟨tail⟩)

/-- Model of the anchored match `uri.match` against the BLT URI pattern:
the scheme prefix must be exactly `blt://` and the remainder is parsed by
`parseTypeId`. -/
def parseBltUri (uri : String) : Option (String × Option String) :=
  if uri.data.take 6 ≠ "blt://".data then none
  else parseTypeId (uri.data.drop 6)

/-- The routing switch of the ReadResource handler: the four entity types
validate a present identifier before interpolating it, the two
collection-only types call their collection endpoint (ignoring any parsed
identifier, as the source's switch does), and unknown types throw. -/
def readRoute (ty : String) (rid : Option String) : Except JsError ApiRequest :=
  if ty = "issues" then
    match rid with
    | some r => (assertSafeId (.str r) ("issue id")).map fun id => ⟨"/issues/" ++ id, "GET", none⟩
    | none => .ok ⟨"/issues", "GET", none⟩
  else if ty = "repos" then
    match rid with
    | some r => (assertSafeId (.str r) ("repo id")).map fun id => ⟨"/repos/" ++ id, "GET", none⟩
    | none => .ok ⟨"/repos", "GET", none⟩
  else if ty = "contributors" then
    match rid with
    | some r =>
        (assertSafeId (.str r) ("contributor id")).map fun id =>
          ⟨"/contributors/" ++ id, "GET", none⟩
    | none => .ok ⟨"/contributors", "GET", none⟩
  else if ty = "workflows" then
    match rid with
    | some r =>
        (assertSafeId (.str r) ("workflow id")).map fun id => ⟨"/workflows/" ++ id, "GET", none⟩
    | none => .ok ⟨"/workflows", "GET", none⟩
  else if ty = "leaderboards" then .ok ⟨"/leaderboards", "GET", none⟩
  else if ty = "rewards" then .ok ⟨"/rewards", "GET", none⟩
  else .error (.generic ("Unknown resource type: " ++ ty))

/-- The ReadResource handler: an unmatched URI throws directly; everything
inside the try block — routing, validation, the API call — has its failure
wrapped into a "Failed to read resource" error; a success is wrapped as
JSON text tagged with the original URI. -/
def readResource (uri : String) (api : ApiRequest → Except JsError JsValue) :
    Except JsError ReadResult × List ApiRequest :=
  match parseBltUri uri with
  | none => (.error (.generic ("Invalid BLT URI: " ++ uri)), [])
  | some (ty, rid) =>
    match readRoute ty rid with
    | .error e =>
        (.error (.generic ("Failed to read resource " ++ uri ++ ": " ++ errMessage e)), [])
    | .ok req =>
      match api req with
      | .error e =>
          (.error (.generic ("Failed to read resource " ++ uri ++ ": " ++ errMessage e)), [req])
      | .ok d => (.ok ⟨uri, "application/json", jsonStringify d⟩, [req])

/-! ### Prompt renderer (source lines 694-823).  Prompt arguments arrive as
a string-to-string mapping; an absent arguments object behaves like the
empty mapping, since every access is optional-chained. -/

def lookupArg (args : List (String × String)) (k : String) : Option String :=
  args.lookup k

def triageText (vd ac : String) : String :=
  "You are a security expert helping to triage a vulnerability report. Please analyze the following vulnerability and provide:\n\n1. Severity Assessment (Critical/High/Medium/Low)\n2. Potential Impact Analysis\n3. Affected Systems/Components\n4. Immediate Mitigation Recommendations\n5. Suggested Priority Level\n\nVulnerability Description:\n" ++
    vd ++ "\n\nAffected Component: " ++ ac ++
    "\n\nPlease provide a structured analysis with clear, actionable recommendations."

def remediationText (issueId issueDetail context : String) : String :=
  "You are a security expert creating a remediation plan for issue #" ++ issueId ++
    ". Please provide:\n\n1. Root Cause Analysis\n2. Step-by-Step Remediation Plan\n3. Testing and Verification Steps\n4. Prevention Measures for the Future\n5. Estimated Timeline and Resources\n\nIssue Details:\n" ++
    issueDetail ++ "\n" ++
    (if context = "" then "" else "\nAdditional Context:\n" ++ context ++ "\n") ++
    "\nPlease create a comprehensive, actionable remediation plan that can be followed by the development team."

def reviewText (cid cty : String) : String :=
  "You are reviewing a security contribution (ID: " ++ cid ++ ", Type: " ++ cty ++
    "). Please evaluate:\n\n1. Quality and Accuracy of the " ++ cty ++
    "\n2. Completeness of Information\n3. Technical Depth and Insight\n4. Value to the Security Community\n5. Recommended Bacon Points (1–100 scale)\n\nPlease provide a thorough review with:\n- Strengths of the contribution\n- Areas for improvement (if any)\n- Recommended bacon point award with justification\n- Any follow-up actions needed\n\nBe constructive and encouraging while maintaining high standards for security contributions."

/-- The value of `args?.f?.trim() || ""` for a prompt argument. -/
def trimmedArg (args : List (String × String)) (f : String) : String :=
  ((lookupArg args f).map jsTrim).getD ""

/-- The value of an optional prompt argument that falls back to a
placeholder when absent or blank (`args?.f?.trim() || fallback`). -/
def trimmedArgOr (args : List (String × String)) (f fallback : String) : String :=
  if trimmedArg args f = "" then fallback else trimmedArg args f

/-- The `triage_vulnerability` branch of the prompt handler. -/
def triageVulnerability (args : List (String × String)) :
    Except JsError (List PromptMessage) × List ApiRequest :=
  if trimmedArg args ("vulnerability_description") = "" then
    (.error (.validation
      ("\"vulnerability_description\" is required for triage_vulnerability")), [])
  else
    (.ok [⟨"user", triageText (trimmedArg args ("vulnerability_description"))
      (trimmedArgOr args ("affected_component") ("unspecified component"))⟩], [])

/-- The `plan_remediation` branch: required-argument check, safe-id
validation of the trimmed issue id, then the single enrichment lookup
whose failure is absorbed into an inline note. -/
def planRemediation (args : List (String × String))
    (api : ApiRequest → Except JsError JsValue) :
    Except JsError (List PromptMessage) × List ApiRequest :=
  if trimmedArg args ("issue_id") = "" then
    (.error (.validation ("\"issue_id\" is required for plan_remediation")), [])
  else match assertSafeId (.str (trimmedArg args ("issue_id"))) ("issue_id") with
    | .error e => (.error e, [])
    | .ok issueId =>
      (.ok [⟨"user", remediationText issueId
          (match api ⟨"/issues/" ++ issueId, "GET", none⟩ with
           | .ok d => jsonStringify d
           | .error e => "(Could not fetch issue details: " ++ errMessage e ++ ")")
          (trimmedArg args ("context"))⟩],
       [⟨"/issues/" ++ issueId, "GET", none⟩])

/-- The `review_contribution` branch of the prompt handler. -/
def reviewContribution (args : List (String × String)) :
    Except JsError (List PromptMessage) × List ApiRequest :=
  if trimmedArg args ("contribution_id") = "" then
    (.error (.validation
      ("\"contribution_id\" is required for review_contribution")), [])
  else
    (.ok [⟨"user", reviewText (trimmedArg args ("contribution_id"))
      (trimmedArgOr args ("contribution_type") ("contribution"))⟩], [])

/-- The GetPrompt handler, together with the list of outbound API calls it
issues.  `plan_remediation` validates the trimmed issue id as a safe
identifier, then performs one issue lookup whose failure is absorbed into
an inline "(Could not fetch issue details: ...)" note; the trimmed context
argument is appended when non-blank.  Unknown prompt names throw. -/
def getPromptTr (name : String) (args : List (String × String))
    (api : ApiRequest → Except JsError JsValue) :
    Except JsError (List PromptMessage) × List ApiRequest :=
  if name = "triage_vulnerability" then triageVulnerability args
  else if name = "plan_remediation" then planRemediation args api
  else if name = "review_contribution" then reviewContribution args
  else (.error (.generic ("Unknown prompt: " ++ name)), [])

/-! ### Small observation helpers used by the statements -/

def isOkB : Except JsError α → Bool
  | .ok _ => true
  | .error _ => false

/-- An API oracle that answers every request with an empty JSON object. -/
def okApi : ApiRequest → Except JsError JsValue := fun _ => .ok (.obj [])

/-- An API oracle on which every request fails with a network error. -/
def failApi : ApiRequest → Except JsError JsValue := fun _ => .error (.apiNetwork ("down"))

def firstMessageText : Except JsError (List PromptMessage) → String
  | .ok (m :: _) => m.text
  | _ => ""

def hasSubList (pat : List Char) : List Char → Bool
  | [] => pat.isEmpty
  | c :: t => pat.isPrefixOf (c :: t) || hasSubList pat t

/-- Executable substring test. -/
def strHasSub (hay pat : String) : Bool := hasSubList pat.data hay.data

/-- Propositional substring containment. -/
def strContains (hay pat : String) : Prop := ∃ l r, hay = l ++ pat ++ r

/-- The five failure-kind labels a dispatcher error text can start with. -/
def labeledText (t : String) : Prop :=
  (∃ m, t = "Validation error: " ++ m) ∨ (∃ m, t = "Timeout error: " ++ m) ∨
  (∃ st m, t = "HTTP " ++ toString (st : Nat) ++ " error: " ++ m) ∨
  (∃ m, t = "Network error: " ++ m) ∨ (∃ m, t = "Error: " ++ m)
theorem ws_not_safe {c : Char} (h : jsIsWs c = true) : safeChar c = false := by
  have hm : c.toNat ∈ wsCodes := by simpa [jsIsWs] using h
  simp only [wsCodes, List.mem_cons, List.not_mem_nil, or_false] at hm
  simp only [safeChar, Bool.or_eq_false_iff, Bool.and_eq_false_iff,
    decide_eq_false_iff_not, not_le]
  omega

theorem trimChars_eq_nil_iff {l : List Char} :
    trimChars l = [] ↔ ∀ c ∈ l, jsIsWs c = true := by
  unfold trimChars
  constructor
  · intro h c hc
    rw [List.reverse_eq_nil_iff, List.dropWhile_eq_nil_iff] at h
    have h' : ∀ x ∈ l.dropWhile jsIsWs, jsIsWs x = true :=
      fun x hx => h x (List.mem_reverse.mpr hx)
    have hsplit := List.takeWhile_append_dropWhile jsIsWs l
    rw [← hsplit] at hc
    rcases List.mem_append.mp hc with h1 | h2
    · exact List.mem_takeWhile_imp h1
    · exact h' c h2
  · intro h
    have h1 : l.dropWhile jsIsWs = [] := List.dropWhile_eq_nil_iff.mpr h
    simp [h1]

theorem jsTrim_eq_empty_iff {s : String} :
    jsTrim s = "" ↔ ∀ c ∈ s.data, jsIsWs c = true := by
  rw [jsTrim, String.ext_iff]
  exact trimChars_eq_nil_iff

theorem assertSafeId_ok_of_test {s : String} (f : String) (h : safeIdTest s = true) :
    assertSafeId (.str s) f = .ok s := by
  have hparts := h
  rw [safeIdTest, Bool.and_eq_true] at hparts
  obtain ⟨hne, hall⟩ := hparts
  have hdata : ∀ c ∈ s.data, safeChar c = true := List.all_eq_true.mp hall
  have htrim : jsTrim s ≠ "" := by
    intro h0
    have hws := jsTrim_eq_empty_iff.mp h0
    obtain ⟨l⟩ := s
    cases l with
    | nil => exact absurd hne (by decide)
    | cons a t =>
        have hsafe := hdata a (List.mem_cons_self a t)
        have := ws_not_safe (hws a (List.mem_cons_self a t))
        rw [this] at hsafe
        exact Bool.noConfusion hsafe
  simp [assertSafeId, htrim, h]

/-- C1: `assertSafeId` fails with a ValidationError for every string that
contains a slash, dot, percent sign or whitespace character, for every
non-string value, and for every blank string; for every nonempty string
made only of safe characters it succeeds and returns the input unchanged. -/
theorem assertSafeId_correct (f : String) :
    (∀ s : String,
        (∃ c ∈ s.data, c = '/' ∨ c = '.' ∨ c = '%' ∨ jsIsWs c = true) →
        ∃ m, assertSafeId (.str s) f = .error (.validation m)) ∧
    (∀ v : JsValue, (∀ s, v ≠ .str s) → ∃ m, assertSafeId v f = .error (.validation m)) ∧
    (∀ s : String, jsTrim s = "" → ∃ m, assertSafeId (.str s) f = .error (.validation m)) ∧
    (∀ s : String, s ≠ "" → (∀ c ∈ s.data, safeChar c = true) →
        assertSafeId (.str s) f = .ok s) := by
  refine ⟨?_, ?_, ?_, ?_⟩
  · rintro s ⟨c, hc, hbad⟩
    by_cases h0 : jsTrim s = ""
    · exact ⟨f ++ " must be a non-empty string", by simp [assertSafeId, h0]⟩
    · have hcs : safeChar c = false := by
        rcases hbad with rfl | rfl | rfl | hws
        · decide
        · decide
        · decide
        · exact ws_not_safe hws
      have hreg : safeIdTest s = false := by
        rw [safeIdTest, Bool.and_eq_false_iff]
        exact Or.inr (List.all_eq_false.mpr ⟨c, hc, by simp [hcs]⟩)
      exact ⟨f ++ " contains invalid characters. Only alphanumeric, hyphen, and underscore are allowed.",
        by simp [assertSafeId, h0, hreg]⟩
  · intro v hv
    cases v with
    | str s => exact absurd rfl (hv s)
    | undefined => exact ⟨_, rfl⟩
    | null => exact ⟨_, rfl⟩
    | bool b => exact ⟨_, rfl⟩
    | num n => exact ⟨_, rfl⟩
    | obj fs => exact ⟨_, rfl⟩
    | arr xs => exact ⟨_, rfl⟩
  · intro s h0
    exact ⟨f ++ " must be a non-empty string", by simp [assertSafeId, h0]⟩
  · intro s hne hall
    apply assertSafeId_ok_of_test
    rw [safeIdTest, Bool.and_eq_true]
    refine ⟨?_, List.all_eq_true.mpr hall⟩
    cases h : s.isEmpty with
    | false => rfl
    | true => exact absurd ((String.isEmpty_iff s).mp h) hne

/-- Witness for C1 at concrete inputs. -/
theorem assertSafeId_correct_w :
    (∃ m, assertSafeId (JsValue.str ("a/b")) ("repo_id") = .error (.validation m)) ∧
    (∃ m, assertSafeId (JsValue.num (JsNum.finite 3)) ("repo_id") = .error (.validation m)) ∧
    (∃ m, assertSafeId (JsValue.str ("  ")) ("repo_id") = .error (.validation m)) ∧
    assertSafeId (JsValue.str ("abc-123_X")) ("repo_id") = .ok ("abc-123_X") := by
  obtain ⟨h1, h2, h3, h4⟩ := assertSafeId_correct ("repo_id")
  refine ⟨h1 ("a/b") ⟨'/', by decide, by decide⟩,
          h2 (JsValue.num (JsNum.finite 3)) (fun s h => JsValue.noConfusion h),
          h3 ("  ") (by decide),
          h4 ("abc-123_X") (by decide) (by decide)⟩


/-- C6 (amended): `assertRequiredNumber` fails with a ValidationError when
the field is missing or null, or when its value coerces to NaN; otherwise
it returns the coerced number.  Non-finite infinities are accepted, not
rejected (see the counterexample). -/
theorem assertRequiredNumber_spec (args : JsValue) (f : String) :
    (isNullOrUndef (getField args f) = true →
      assertRequiredNumber args f =
        .error (.validation ("Missing required argument: \"" ++ f ++ "\""))) ∧
    (isNullOrUndef (getField args f) = false →
      (jsToNumber (getField args f) = .nan →
        assertRequiredNumber args f =
          .error (.validation ("\"" ++ f ++ "\" must be a valid number"))) ∧
      (jsToNumber (getField args f) ≠ .nan →
        assertRequiredNumber args f = .ok (jsToNumber (getField args f)))) := by
  unfold assertRequiredNumber
  refine ⟨fun h => ?_, fun h => ⟨fun hnan => ?_, fun hnan => ?_⟩⟩
  · cases hv : getField args f <;> rw [hv] at h <;> simp_all [isNullOrUndef, isUndef, isNull]
  · cases hv : getField args f <;> rw [hv] at h hnan <;>
      simp_all [isNullOrUndef, isUndef, isNull, isNanB]
  · cases hv : getField args f <;> rw [hv] at h hnan <;>
      simp_all [isNullOrUndef, isUndef, isNull, isNanB]

/-- C7 (amended): `assertOptionalString` returns `none` when the field is
absent or null; a present string is trimmed and a blank result is
returned as `none` (dropped, not an error); a present non-string fails
with a ValidationError. -/
theorem assertOptionalString_spec (args : JsValue) (f : String) :
    (isNullOrUndef (getField args f) = true → assertOptionalString args f = .ok none) ∧
    (∀ s, getField args f = .str s →
      assertOptionalString args f = .ok (if jsTrim s = "" then none else some (jsTrim s))) ∧
    ((isNullOrUndef (getField args f) = false ∧ ∀ s, getField args f ≠ .str s) →
      assertOptionalString args f =
        .error (.validation ("\"" ++ f ++ "\" must be a string"))) := by
  unfold assertOptionalString
  refine ⟨fun h => ?_, fun s hs => ?_, fun ⟨h1, h2⟩ => ?_⟩
  · cases hv : getField args f <;> rw [hv] at h <;> simp_all [isNullOrUndef, isUndef, isNull]
  · rw [hs]; simp [isUndef, isNull]
  · cases hv : getField args f <;> rw [hv] at h1 <;>
      simp_all [isNullOrUndef, isUndef, isNull]

/-- C6 counterexample: the string "Infinity" coerces to a non-finite
number and is accepted, contradicting the claim that every value coercing
to a non-finite number is rejected. -/
theorem requireNumber_accepts_infinity :
    assertRequiredNumber (JsValue.obj [(("points" : String), JsValue.str ("Infinity"))]) ("points") =
      .ok JsNum.posInf ∧ jsNumIsFinite JsNum.posInf = false :=
  ⟨rfl, rfl⟩

/-- Witness for C6 at a concrete input. -/
theorem assertRequiredNumber_spec_w :
    assertRequiredNumber (JsValue.obj [(("points" : String), JsValue.num (JsNum.finite 5))]) ("points") =
      .ok (JsNum.finite 5) := by
  have h :=
    ((assertRequiredNumber_spec
        (JsValue.obj [(("points" : String), JsValue.num (JsNum.finite 5))]) ("points")).2
      (by rfl)).2 (fun hc => JsNum.noConfusion hc)
  exact h

/-- C7 counterexample: a present blank string yields `undefined`
(`none`), not the ValidationError the claim requires. -/
theorem optionalString_blank_gives_none :
    assertOptionalString (JsValue.obj [(("comment" : String), JsValue.str ("   "))]) ("comment") =
      .ok none ∧ jsTrim ("   ") = "" :=
  ⟨rfl, rfl⟩

/-- Witness for C7 at a concrete input. -/
theorem assertOptionalString_spec_w :
    assertOptionalString (JsValue.obj [(("comment" : String), JsValue.str (" hi "))]) ("comment") =
      .ok (some ("hi")) := by
  have h :=
    (assertOptionalString_spec
        (JsValue.obj [(("comment" : String), JsValue.str (" hi "))]) ("comment")).2.1
      (" hi ") rfl
  exact h

/-- C5: `makeApiRequest` classifies every fetch outcome into exactly one
kind — an abort becomes a timeout error, any other thrown value becomes a
network error, a non-2xx response becomes an HTTP error carrying status
and status text, and a 2xx response returns the parsed JSON — and the
timeout error is distinct from the network error. -/
theorem makeApiRequest_classifies (apiBase apiKey endpoint method : String)
    (body : Option (List (String × JsValue))) (fetchFn : FetchCall → FetchResult) :
    (∀ isE nm msg,
      fetchFn (buildFetchCall apiBase apiKey endpoint method body) = .threw isE nm msg →
      ((isE = true ∧ nm = "AbortError") →
        makeApiRequest apiBase apiKey endpoint method body fetchFn =
          .error (.apiTimeout ("Request to " ++ endpoint ++ " timed out after 10000ms"))) ∧
      (¬(isE = true ∧ nm = "AbortError") →
        makeApiRequest apiBase apiKey endpoint method body fetchFn =
          .error (.apiNetwork ("Network failure reaching " ++ endpoint ++ ": " ++ msg)))) ∧
    (∀ st stx b,
      fetchFn (buildFetchCall apiBase apiKey endpoint method body) = .response st stx b →
      ((200 ≤ st ∧ st ≤ 299) →
        makeApiRequest apiBase apiKey endpoint method body fetchFn = .ok b) ∧
      (¬(200 ≤ st ∧ st ≤ 299) →
        makeApiRequest apiBase apiKey endpoint method body fetchFn =
          .error (.apiHttp st stx ("HTTP " ++ toString st ++ " " ++ stx ++ " — " ++ endpoint)))) ∧
    (∀ m1 m2, JsError.apiTimeout m1 ≠ JsError.apiNetwork m2) := by
  refine ⟨fun isE nm msg hf => ⟨fun hab => ?_, fun hab => ?_⟩,
          fun st stx b hf => ⟨fun hok => ?_, fun hok => ?_⟩,
          fun m1 m2 h => JsError.noConfusion h⟩
  · rw [makeApiRequest, hf]; exact if_pos hab
  · rw [makeApiRequest, hf]; exact if_neg hab
  · rw [makeApiRequest, hf]; exact if_pos hok
  · rw [makeApiRequest, hf]; exact if_neg hok

/-- Witness for C5 at the four concrete fetch outcomes. -/
theorem makeApiRequest_classifies_w :
    (makeApiRequest ("https://blt.owasp.org/api") ("") ("/issues") ("GET") none
        (fun _ => .threw true ("AbortError") ("aborted")) =
      .error (.apiTimeout ("Request to /issues timed out after 10000ms"))) ∧
    (makeApiRequest ("https://blt.owasp.org/api") ("") ("/issues") ("GET") none
        (fun _ => .threw true ("TypeError") ("fetch failed")) =
      .error (.apiNetwork ("Network failure reaching /issues: fetch failed"))) ∧
    (makeApiRequest ("https://blt.owasp.org/api") ("") ("/issues") ("GET") none
        (fun _ => .response 404 ("Not Found") (JsValue.obj [])) =
      .error (.apiHttp 404 ("Not Found") ("HTTP 404 Not Found — /issues"))) ∧
    (makeApiRequest ("https://blt.owasp.org/api") ("") ("/issues") ("GET") none
        (fun _ => .response 200 ("OK") (JsValue.obj [])) = .ok (JsValue.obj [])) := by
  refine ⟨?_, ?_, ?_, ?_⟩
  · exact ((makeApiRequest_classifies ("https://blt.owasp.org/api") ("") ("/issues") ("GET") none
      (fun _ => .threw true ("AbortError") ("aborted"))).1 true ("AbortError") ("aborted") rfl).1
      ⟨rfl, rfl⟩
  · exact ((makeApiRequest_classifies ("https://blt.owasp.org/api") ("") ("/issues") ("GET") none
      (fun _ => .threw true ("TypeError") ("fetch failed"))).1 true ("TypeError") ("fetch failed")
      rfl).2 (by simp)
  · exact (((makeApiRequest_classifies ("https://blt.owasp.org/api") ("") ("/issues") ("GET") none
      (fun _ => .response 404 ("Not Found") (JsValue.obj []))).2.1 404 ("Not Found")
      (JsValue.obj []) rfl).2 (by omega))
  · exact (((makeApiRequest_classifies ("https://blt.owasp.org/api") ("") ("/issues") ("GET") none
      (fun _ => .response 200 ("OK") (JsValue.obj []))).2.1 200 ("OK")
      (JsValue.obj []) rfl).1 (by omega))

theorem exBind_ok {α β : Type} (a : α) (k : α → Except JsError β) :
    (Except.ok a >>= k) = k a := rfl

theorem exBind_error {α β : Type} (e : JsError) (k : α → Except JsError β) :
    ((Except.error e : Except JsError α) >>= k) = Except.error e := rfl

theorem assertOptionalString_ok_some {args : JsValue} {f s : String}
    (h : getField args f = .str s) (hs : jsTrim s ≠ "") :
    assertOptionalString args f = .ok (some (jsTrim s)) := by
  unfold assertOptionalString
  rw [h]
  simp [isUndef, isNull, hs]

/-- C2 counterexample: with repo_id "a/b" — which fails the safe-identifier
test — submit_issue still succeeds and merges the value into the POST
/issues body, so repo_id is not identifier-validated before the merge. -/
theorem submit_issue_repo_id_not_validated :
    safeIdTest ("a/b") = false ∧
    (runTool (submitIssueReq (JsValue.obj
      [(("title" : String), JsValue.str ("t")), (("description" : String), JsValue.str ("d")),
       (("repo_id" : String), JsValue.str ("a/b")), (("severity" : String), JsValue.str ("high")),
       (("type" : String), JsValue.str ("bug"))])) okApi).2 =
    [⟨"/issues", "POST",
      some [(("title" : String), JsValue.str ("t")), (("description" : String), JsValue.str ("d")),
            (("repo_id" : String), JsValue.str ("a/b")), (("severity" : String), JsValue.str ("high")),
            (("type" : String), JsValue.str ("bug"))]⟩] ∧
    isOkB (runTool (submitIssueReq (JsValue.obj
      [(("title" : String), JsValue.str ("t")), (("description" : String), JsValue.str ("d")),
       (("repo_id" : String), JsValue.str ("a/b")), (("severity" : String), JsValue.str ("high")),
       (("type" : String), JsValue.str ("bug"))])) okApi).1 = true := ⟨rfl, rfl, rfl⟩

/-- C2 (amended): a present non-blank repo_id string is only
string-validated: its trimmed value is merged into the POST /issues body
with no safe-identifier check applied. -/
theorem submit_issue_repo_id_merge (args : JsValue)
    (api : ApiRequest → Except JsError JsValue) (t d sv ty s : String) :
    assertRequiredString args ("title") = .ok t →
    assertRequiredString args ("description") = .ok d →
    assertRequiredString args ("severity") = .ok sv →
    assertRequiredString args ("type") = .ok ty →
    validSeverities.contains sv = true →
    validTypes.contains ty = true →
    getField args ("repo_id") = .str s →
    jsTrim s ≠ "" →
    (runTool (submitIssueReq args) api).2 =
      [⟨"/issues", "POST",
        some [(("title" : String), JsValue.str t), (("description" : String), JsValue.str d),
              (("repo_id" : String), JsValue.str (jsTrim s)),
              (("severity" : String), JsValue.str sv), (("type" : String), JsValue.str ty)]⟩] := by
  intro h1 h2 h3 h4 h5 h6 h7 h8
  have hopt := assertOptionalString_ok_some h7 h8
  have hreq : submitIssueReq args = Except.ok ⟨"/issues", "POST",
      some [(("title" : String), JsValue.str t), (("description" : String), JsValue.str d),
            (("repo_id" : String), JsValue.str (jsTrim s)),
            (("severity" : String), JsValue.str sv), (("type" : String), JsValue.str ty)]⟩ := by
    rw [submitIssueReq, h1, exBind_ok, h2, exBind_ok, hopt, exBind_ok, h3, exBind_ok,
      h4, exBind_ok, h5, h6]
    simp
  rw [hreq]; rfl

theorem awardBaconReq_ok_endpoint (args : JsValue) (req : ApiRequest)
    (h : awardBaconReq args = .ok req) :
    ∃ cid, req.endpoint = "/contributors/" ++ cid ++ "/rewards" := by
  unfold awardBaconReq at h
  cases hc : assertRequiredString args ("contributor_id") with
  | error e => rw [hc, exBind_error] at h; exact Except.noConfusion h
  | ok cid =>
  rw [hc, exBind_ok] at h
  cases hp : assertRequiredNumber args ("points") with
  | error e => rw [hp, exBind_error] at h; exact Except.noConfusion h
  | ok p =>
  rw [hp, exBind_ok] at h
  cases hr : assertRequiredString args ("reason") with
  | error e => rw [hr, exBind_error] at h; exact Except.noConfusion h
  | ok r =>
  rw [hr, exBind_ok] at h
  by_cases hl : jsLe p (.finite 0) = true
  · rw [if_pos hl] at h; exact Except.noConfusion h
  · rw [if_neg hl] at h
    cases hs : assertSafeId (.str cid) ("contributor_id") with
    | error e => rw [hs, exBind_error] at h; exact Except.noConfusion h
    | ok c =>
      rw [hs, exBind_ok] at h
      cases h
      exact ⟨c, rfl⟩

theorem contributors_ne_rewards (c : String) :
    "/contributors/" ++ c ++ "/rewards" ≠ "/rewards" := by
  intro h
  have := congrArg String.length h
  rw [String.length_append, String.length_append] at this
  have h1 : ("/contributors/" : String).length = 14 := rfl
  have h2 : ("/rewards" : String).length = 8 := rfl
  rw [h1, h2] at this
  omega

/-- C4: for every argument object passing validation, award_bacon issues
exactly one outbound call, a POST to /contributors/(contributor_id)/rewards
with body points and reason; non-positive points is a validation failure
with no outbound call; and no award_bacon execution ever posts to the
flat /rewards collection. -/
theorem award_bacon_shape (args : JsValue) (api : ApiRequest → Except JsError JsValue) :
    (∀ cid p r, assertRequiredString args ("contributor_id") = .ok cid →
      assertRequiredNumber args ("points") = .ok p →
      assertRequiredString args ("reason") = .ok r →
      (jsLe p (.finite 0) = true →
        runTool (awardBaconReq args) api =
          (.error (.validation ("\"points\" must be a positive number")), [])) ∧
      (jsLe p (.finite 0) = false → safeIdTest cid = true →
        (runTool (awardBaconReq args) api).2 =
          [⟨"/contributors/" ++ cid ++ "/rewards", "POST",
            some [(("points" : String), JsValue.num p),
                  (("reason" : String), JsValue.str r)]⟩])) ∧
    (∀ req ∈ (runTool (awardBaconReq args) api).2, req.endpoint ≠ "/rewards") := by
  constructor
  · intro cid p r hc hp hr
    constructor
    · intro hl
      have hreq : awardBaconReq args =
          .error (.validation ("\"points\" must be a positive number")) := by
        rw [awardBaconReq, hc, exBind_ok, hp, exBind_ok, hr, exBind_ok, if_pos hl]
      rw [hreq]; rfl
    · intro hl hsafe
      have hreq : awardBaconReq args = Except.ok
          ⟨"/contributors/" ++ cid ++ "/rewards", "POST",
            some [(("points" : String), JsValue.num p),
                  (("reason" : String), JsValue.str r)]⟩ := by
        rw [awardBaconReq, hc, exBind_ok, hp, exBind_ok, hr, exBind_ok,
          if_neg (by rw [hl]; exact Bool.false_ne_true),
          assertSafeId_ok_of_test ("contributor_id") hsafe, exBind_ok]
      rw [hreq]; rfl
  · intro req hreq
    cases hq : awardBaconReq args with
    | error e =>
        rw [hq] at hreq; simp only [runTool] at hreq
        exact absurd hreq (List.not_mem_nil req)
    | ok r0 =>
      rw [hq] at hreq; simp only [runTool] at hreq
      obtain ⟨cid, hend⟩ := awardBaconReq_ok_endpoint args r0 hq
      have : req = r0 := List.mem_singleton.mp hreq
      rw [this, hend]
      exact contributors_ne_rewards cid

/-- Witness for C2 at concrete inputs (repo_id " r1 " is trimmed and
merged). -/
theorem submit_issue_repo_id_merge_w :
    (runTool (submitIssueReq (JsValue.obj
        [(("title" : String), JsValue.str ("t")),
         (("description" : String), JsValue.str ("d")),
         (("repo_id" : String), JsValue.str (" r1 ")),
         (("severity" : String), JsValue.str ("high")),
         (("type" : String), JsValue.str ("bug"))]))
      (fun _ => Except.ok (JsValue.obj []))).2 =
      [⟨"/issues", "POST",
        some [(("title" : String), JsValue.str ("t")), (("description" : String), JsValue.str ("d")),
              (("repo_id" : String), JsValue.str ("r1")),
              (("severity" : String), JsValue.str ("high")), (("type" : String), JsValue.str ("bug"))]⟩] := by
  have h := submit_issue_repo_id_merge (JsValue.obj
        [(("title" : String), JsValue.str ("t")),
         (("description" : String), JsValue.str ("d")),
         (("repo_id" : String), JsValue.str (" r1 ")),
         (("severity" : String), JsValue.str ("high")),
         (("type" : String), JsValue.str ("bug"))])
      (fun _ => Except.ok (JsValue.obj [])) ("t") ("d") ("high") ("bug") (" r1 ")
      rfl rfl rfl rfl rfl rfl rfl (by decide)
  exact h

/-- Witness for C4 at the concrete input of the spec's test sentence. -/
theorem award_bacon_shape_w :
    (runTool (awardBaconReq (JsValue.obj
        [(("contributor_id" : String), JsValue.str ("42")),
         (("points" : String), JsValue.num (JsNum.finite 10)),
         (("reason" : String), JsValue.str ("x"))]))
      (fun _ => Except.ok (JsValue.obj []))).2 =
      [⟨"/contributors/" ++ "42" ++ "/rewards", "POST",
        some [(("points" : String), JsValue.num (JsNum.finite 10)),
              (("reason" : String), JsValue.str ("x"))]⟩] := by
  have h := ((award_bacon_shape (JsValue.obj
        [(("contributor_id" : String), JsValue.str ("42")),
         (("points" : String), JsValue.num (JsNum.finite 10)),
         (("reason" : String), JsValue.str ("x"))])
      (fun _ => Except.ok (JsValue.obj []))).1 ("42") (JsNum.finite 10) ("x")
      rfl rfl rfl).2 (by rfl) (by decide)
  exact h

theorem labeled_of_error (e : JsError) :
    labeledText (errorLabel e ++ ": " ++ errMessage e) := by
  cases e with
  | validation m => exact Or.inl ⟨m, rfl⟩
  | apiTimeout m => exact Or.inr (Or.inl ⟨m, rfl⟩)
  | apiHttp st stx m =>
      refine Or.inr (Or.inr (Or.inl ⟨st, m, ?_⟩))
      show (("HTTP " ++ toString st ++ " error") ++ ": ") ++ m =
        (("HTTP " ++ toString st) ++ " error: ") ++ m
      congr 1
      rw [String.append_assoc]
      have h2 : (" error" : String) ++ ": " = " error: " := rfl
      rw [h2]
  | apiNetwork m => exact Or.inr (Or.inr (Or.inr (Or.inl ⟨m, rfl⟩)))
  | generic m => exact Or.inr (Or.inr (Or.inr (Or.inr ⟨m, rfl⟩)))

theorem toolCatch_of_ok {step : Except JsError ToolResult × List ApiRequest}
    {r : ToolResult} (h : step.1 = .ok r) : (toolCatch step).1 = r := by
  simp [toolCatch, h]

theorem toolCatch_of_error {step : Except JsError ToolResult × List ApiRequest}
    {e : JsError} (h : step.1 = .error e) :
    (toolCatch step).1 = ⟨[errorLabel e ++ ": " ++ errMessage e], true⟩ := by
  simp [toolCatch, h]

theorem runTool_fst (q : Except JsError ApiRequest)
    (api : ApiRequest → Except JsError JsValue) :
    (∃ d, (runTool q api).1 = .ok ⟨[jsonStringify d], false⟩) ∨
    (∃ e, (runTool q api).1 = .error e) := by
  cases q with
  | error e => exact Or.inr ⟨e, rfl⟩
  | ok r =>
    cases h : api r with
    | ok d => exact Or.inl ⟨d, by simp [runTool, h, Except.map]⟩
    | error e => exact Or.inr ⟨e, by simp [runTool, h, Except.map]⟩

theorem knownTool_labeled (q : Except JsError ApiRequest)
    (api : ApiRequest → Except JsError JsValue) :
    ∃ t : String, (toolCatch (runTool q api)).1.content = [t] ∧
      ((toolCatch (runTool q api)).1.isError = true → labeledText t) := by
  rcases runTool_fst q api with ⟨d, hd⟩ | ⟨e, he⟩
  · refine ⟨jsonStringify d, ?_, ?_⟩
    · rw [toolCatch_of_ok hd]
    · rw [toolCatch_of_ok hd]
      intro h
      exact absurd h (by simp)
  · refine ⟨errorLabel e ++ ": " ++ errMessage e, ?_, fun _ => labeled_of_error e⟩
    rw [toolCatch_of_error he]

/-- C3: for every tool name (known or unknown) and every raw argument
value, the dispatcher returns a single text block, and whenever the
result is error-flagged its text starts with one of the five
failure-kind labels. -/
theorem callTool_never_throws (name : String) (args : JsValue)
    (api : ApiRequest → Except JsError JsValue) :
    ∃ t : String, (callTool name args api).1.content = [t] ∧
      ((callTool name args api).1.isError = true → labeledText t) := by
  unfold callTool
  by_cases hg : jsTruthy args = false ∨ jsTypeof args ≠ "object"
  · rw [if_pos hg]
    exact ⟨"Error: Missing required arguments", rfl, fun _ =>
      Or.inr (Or.inr (Or.inr (Or.inr ⟨"Missing required arguments", rfl⟩)))⟩
  · rw [if_neg hg]
    by_cases h1 : name = "submit_issue"
    · rw [if_pos h1]; exact knownTool_labeled _ api
    rw [if_neg h1]
    by_cases h2 : name = "award_bacon"
    · rw [if_pos h2]; exact knownTool_labeled _ api
    rw [if_neg h2]
    by_cases h3 : name = "update_issue_status"
    · rw [if_pos h3]; exact knownTool_labeled _ api
    rw [if_neg h3]
    by_cases h4 : name = "add_comment"
    · rw [if_pos h4]; exact knownTool_labeled _ api
    rw [if_neg h4]
    refine ⟨"Error: Unknown tool \"" ++ name ++ "\"", rfl, fun _ =>
      Or.inr (Or.inr (Or.inr (Or.inr ⟨"Unknown tool \"" ++ (name ++ "\""), ?_⟩)))⟩
    show ("Error: Unknown tool \"" ++ name) ++ "\"" =
      "Error: " ++ ("Unknown tool \"" ++ (name ++ "\""))
    rw [String.append_assoc ("Error: Unknown tool \"") name ("\"")]
    rw [← String.append_assoc ("Error: ") ("Unknown tool \"") (name ++ "\"")]
    have h0 : ("Error: " : String) ++ "Unknown tool \"" = "Error: Unknown tool \"" := rfl
    rw [h0]

/-- Witness for C3 at an unknown tool name. -/
theorem callTool_never_throws_w :
    ∃ t : String,
      (callTool ("nonexistent_tool") (JsValue.obj [])
          (fun _ => Except.ok (JsValue.obj []))).1.content = [t] ∧
      ((callTool ("nonexistent_tool") (JsValue.obj [])
          (fun _ => Except.ok (JsValue.obj []))).1.isError = true → labeledText t) :=
  callTool_never_throws ("nonexistent_tool") (JsValue.obj [])
    (fun _ => Except.ok (JsValue.obj []))

theorem takeDrop_ne_slash (pre : List Char) (hpre : ∀ c ∈ pre, (!(c == '/')) = true)
    (rest : List Char) :
    (pre ++ '/' :: rest).takeWhile (fun c => !(c == '/')) = pre ∧
    (pre ++ '/' :: rest).dropWhile (fun c => !(c == '/')) = '/' :: rest := by
  induction pre with
  | nil => simp [List.takeWhile, List.dropWhile]
  | cons a t ih =>
      have ha := hpre a (List.mem_cons_self a t)
      have iht := ih (fun c hc => hpre c (List.mem_cons_of_mem a hc))
      constructor
      · rw [List.cons_append, List.takeWhile_cons, ha, iht.1]; simp
      · rw [List.cons_append, List.dropWhile_cons, ha, iht.2]; simp

theorem parse_leaderboards_id (id : String) (hid : id ≠ "")
    (hterm : ∀ c ∈ id.data, isLineTerm c = false) :
    parseBltUri ("blt://leaderboards/" ++ id) = some ("leaderboards", some id) := by
  obtain ⟨l⟩ := id
  have hl : l ≠ [] := fun h => hid (by rw [h])
  have h1 : ("blt://leaderboards/" ++ (⟨l⟩ : String)).data.take 6 = "blt://".data := rfl
  have h2 : ("blt://leaderboards/" ++ (⟨l⟩ : String)).data.drop 6 =
      "leaderboards".data ++ '/' :: l := rfl
  have tw := takeDrop_ne_slash ("leaderboards".data) (by decide) l
  have hisEmpty : l.isEmpty = false := by
    cases l with
    | nil => exact absurd rfl hl
    | cons a t => rfl
  have hany : l.any isLineTerm = false := List.any_eq_false.mpr (by
    intro c hc
    simp [hterm c hc])
  rw [parseBltUri, h1]
  rw [if_neg (show ¬("blt://".data ≠ "blt://".data) from fun h => h rfl)]
  rw [h2, parseTypeId, tw.1, tw.2]
  have hne : ("leaderboards".data).isEmpty = false := rfl
  rw [hne]
  simp [hisEmpty, hany]

theorem parse_rewards_id (id : String) (hid : id ≠ "")
    (hterm : ∀ c ∈ id.data, isLineTerm c = false) :
    parseBltUri ("blt://rewards/" ++ id) = some ("rewards", some id) := by
  obtain ⟨l⟩ := id
  have hl : l ≠ [] := fun h => hid (by rw [h])
  have h1 : ("blt://rewards/" ++ (⟨l⟩ : String)).data.take 6 = "blt://".data := rfl
  have h2 : ("blt://rewards/" ++ (⟨l⟩ : String)).data.drop 6 =
      "rewards".data ++ '/' :: l := rfl
  have tw := takeDrop_ne_slash ("rewards".data) (by decide) l
  have hisEmpty : l.isEmpty = false := by
    cases l with
    | nil => exact absurd rfl hl
    | cons a t => rfl
  have hany : l.any isLineTerm = false := List.any_eq_false.mpr (by
    intro c hc
    simp [hterm c hc])
  rw [parseBltUri, h1]
  rw [if_neg (show ¬("blt://".data ≠ "blt://".data) from fun h => h rfl)]
  rw [h2, parseTypeId, tw.1, tw.2]
  have hne : ("rewards".data).isEmpty = false := rfl
  rw [hne]
  simp [hisEmpty, hany]

/-- C8 (amended): for every nonempty identifier segment, reading
blt://leaderboards/(id) or blt://rewards/(id) ignores the identifier and
performs the collection-level call, succeeding whenever the collection
endpoint answers — the identifier is silently dropped, not rejected. -/
theorem collection_only_ignores_id (id : String) (api : ApiRequest → Except JsError JsValue)
    (hid : id ≠ "") (hterm : ∀ c ∈ id.data, isLineTerm c = false) :
    (readResource ("blt://leaderboards/" ++ id) api).2 = [⟨"/leaderboards", "GET", none⟩] ∧
    (readResource ("blt://rewards/" ++ id) api).2 = [⟨"/rewards", "GET", none⟩] ∧
    (∀ d, api ⟨"/leaderboards", "GET", none⟩ = .ok d →
      isOkB (readResource ("blt://leaderboards/" ++ id) api).1 = true) ∧
    (∀ d, api ⟨"/rewards", "GET", none⟩ = .ok d →
      isOkB (readResource ("blt://rewards/" ++ id) api).1 = true) := by
  have hpl := parse_leaderboards_id id hid hterm
  have hpr := parse_rewards_id id hid hterm
  have hrl : readRoute ("leaderboards") (some id) = .ok ⟨"/leaderboards", "GET", none⟩ := rfl
  have hrr : readRoute ("rewards") (some id) = .ok ⟨"/rewards", "GET", none⟩ := rfl
  refine ⟨?_, ?_, fun d hd => ?_, fun d hd => ?_⟩
  · simp only [readResource, hpl, hrl]
    cases api ⟨"/leaderboards", "GET", none⟩ <;> rfl
  · simp only [readResource, hpr, hrr]
    cases api ⟨"/rewards", "GET", none⟩ <;> rfl
  · simp only [readResource, hpl, hrl, hd]
    rfl
  · simp only [readResource, hpr, hrr, hd]
    rfl

theorem strContains_refl (s : String) : strContains s s :=
  ⟨"", "", by rw [String.empty_append, String.append_empty]⟩

theorem strContains_appL (a : String) {h pat : String} (hc : strContains h pat) :
    strContains (a ++ h) pat := by
  obtain ⟨l, r, rfl⟩ := hc
  exact ⟨a ++ l, r, by simp [String.append_assoc]⟩

theorem strContains_appR (b : String) {h pat : String} (hc : strContains h pat) :
    strContains (h ++ b) pat := by
  obtain ⟨l, r, rfl⟩ := hc
  exact ⟨l, r ++ b, by simp [String.append_assoc]⟩

theorem contains_could_not_fetch (m : String) :
    strContains ("(Could not fetch issue details: " ++ m ++ ")")
      ("Could not fetch issue details") := by
  refine ⟨"(", ": " ++ m ++ ")", ?_⟩
  have h1 : ("(" : String) ++ "Could not fetch issue details" =
      "(Could not fetch issue details" := rfl
  rw [h1]
  conv_rhs => rw [← String.append_assoc, ← String.append_assoc]
  have h2 : ("(Could not fetch issue details" : String) ++ ": " =
      "(Could not fetch issue details: " := rfl
  rw [h2]

/-- C9 (amended): with a safe trimmed issue_id, when the single issue
lookup fails, plan_remediation still returns a rendered prompt whose text
carries an inline "Could not fetch issue details" note; a context
argument that is non-blank after trimming is appended in trimmed form. -/
theorem plan_remediation_graceful (args : List (String × String))
    (api : ApiRequest → Except JsError JsValue) (rawId : String) (e : JsError) :
    lookupArg args ("issue_id") = some rawId →
    safeIdTest (jsTrim rawId) = true →
    api ⟨"/issues/" ++ jsTrim rawId, "GET", none⟩ = .error e →
    ∃ txt : String,
      getPromptTr ("plan_remediation") args api =
        (.ok [⟨"user", txt⟩], [⟨"/issues/" ++ jsTrim rawId, "GET", none⟩]) ∧
      strContains txt ("Could not fetch issue details") ∧
      (∀ c, lookupArg args ("context") = some c → jsTrim c ≠ "" →
        strContains txt ("\nAdditional Context:\n" ++ jsTrim c ++ "\n")) := by
  intro hlook hsafe hapi
  have hta : trimmedArg args ("issue_id") = jsTrim rawId := by
    simp [trimmedArg, hlook]
  have hne : jsTrim rawId ≠ "" := by
    intro h0
    rw [h0] at hsafe
    exact absurd hsafe (by decide)
  have hdisp : getPromptTr ("plan_remediation") args api = planRemediation args api := rfl
  rw [hdisp, planRemediation, hta, if_neg hne]
  simp only [assertSafeId_ok_of_test ("issue_id") hsafe, hapi]
  refine ⟨remediationText (jsTrim rawId)
      ("(Could not fetch issue details: " ++ errMessage e ++ ")")
      (trimmedArg args ("context")), rfl, ?_, ?_⟩
  · rw [remediationText]
    exact strContains_appR _ (strContains_appR _ (strContains_appR _
      (strContains_appL _ (contains_could_not_fetch _))))
  · intro c hc hcne
    have hctx : trimmedArg args ("context") = jsTrim c := by simp [trimmedArg, hc]
    rw [remediationText, hctx, if_neg hcne]
    exact strContains_appR _ (strContains_appL _ (strContains_refl _))

/-- Witness for C9 with a failing lookup at a concrete input. -/
theorem plan_remediation_graceful_w :
    ∃ txt : String,
      getPromptTr ("plan_remediation") [(("issue_id" : String), ("abc123" : String))] failApi =
        (.ok [⟨"user", txt⟩], [⟨"/issues/" ++ jsTrim ("abc123"), "GET", none⟩]) ∧
      strContains txt ("Could not fetch issue details") ∧
      (∀ c, lookupArg [(("issue_id" : String), ("abc123" : String))] ("context") = some c →
        jsTrim c ≠ "" →
        strContains txt ("\nAdditional Context:\n" ++ jsTrim c ++ "\n")) :=
  plan_remediation_graceful _ failApi ("abc123") (.apiNetwork ("down")) rfl (by decide) rfl

theorem assertSafeId_error_shape {v : JsValue} {f : String} {e : JsError}
    (h : assertSafeId v f = .error e) : ∃ m, e = .validation m := by
  cases v with
  | str s =>
      rw [assertSafeId] at h
      by_cases h0 : jsTrim s = ""
      · rw [if_pos h0] at h
        cases h
        exact ⟨_, rfl⟩
      · rw [if_neg h0] at h
        by_cases h1 : safeIdTest s = true
        · rw [if_pos h1] at h
          exact Except.noConfusion h
        · rw [if_neg h1] at h
          cases h
          exact ⟨_, rfl⟩
  | undefined => cases h; exact ⟨_, rfl⟩
  | null => cases h; exact ⟨_, rfl⟩
  | bool b => cases h; exact ⟨_, rfl⟩
  | num n => cases h; exact ⟨_, rfl⟩
  | obj fs => cases h; exact ⟨_, rfl⟩
  | arr xs => cases h; exact ⟨_, rfl⟩

theorem assertSafeId_ok_shape {v : JsValue} {f s : String}
    (h : assertSafeId v f = .ok s) : v = .str s ∧ safeIdTest s = true := by
  cases v with
  | str s0 =>
      rw [assertSafeId] at h
      by_cases h0 : jsTrim s0 = ""
      · rw [if_pos h0] at h; exact Except.noConfusion h
      · rw [if_neg h0] at h
        by_cases h1 : safeIdTest s0 = true
        · rw [if_pos h1] at h
          cases h
          exact ⟨rfl, h1⟩
        · rw [if_neg h1] at h; exact Except.noConfusion h
  | undefined => exact Except.noConfusion h
  | null => exact Except.noConfusion h
  | bool b => exact Except.noConfusion h
  | num n => exact Except.noConfusion h
  | obj fs => exact Except.noConfusion h
  | arr xs => exact Except.noConfusion h

/-- C10 (amended): whenever the trimmed issue_id contains a character
outside the safe class, plan_remediation fails with a ValidationError and
issues zero outbound API calls — validation strictly precedes the
lookup. -/
theorem plan_remediation_validates_first (args : List (String × String))
    (api : ApiRequest → Except JsError JsValue) (rawId : String) :
    lookupArg args ("issue_id") = some rawId →
    jsTrim rawId ≠ "" →
    (∃ c ∈ (jsTrim rawId).data, safeChar c = false) →
    ∃ m, getPromptTr ("plan_remediation") args api = (.error (.validation m), []) := by
  rintro hlook hne ⟨c, hc, hbad⟩
  have hta : trimmedArg args ("issue_id") = jsTrim rawId := by
    simp [trimmedArg, hlook]
  have hreg : safeIdTest (jsTrim rawId) = false := by
    rw [safeIdTest, Bool.and_eq_false_iff]
    exact Or.inr (List.all_eq_false.mpr ⟨c, hc, by simp [hbad]⟩)
  have hdisp : getPromptTr ("plan_remediation") args api = planRemediation args api := rfl
  rw [hdisp, planRemediation, hta, if_neg hne]
  cases hsi : assertSafeId (.str (jsTrim rawId)) ("issue_id") with
  | error e =>
      obtain ⟨m, rfl⟩ := assertSafeId_error_shape hsi
      simp only [hsi]
      exact ⟨m, rfl⟩
  | ok s =>
      obtain ⟨heq, htest⟩ := assertSafeId_ok_shape hsi
      injection heq with heq'
      rw [← heq'] at htest
      rw [htest] at hreg
      exact Bool.noConfusion hreg

/-- Witness for C10 at the unsafe identifier "a/b". -/
theorem plan_remediation_validates_first_w :
    ∃ m, getPromptTr ("plan_remediation")
        [(("issue_id" : String), ("a/b" : String))] okApi =
      (.error (.validation m), []) :=
  plan_remediation_validates_first _ okApi ("a/b") rfl (by decide)
    ⟨'/', by decide, by decide⟩

/-- C8 counterexample: reading blt://leaderboards/123 (and
blt://rewards/123) succeeds with a call to the bare collection endpoint,
contradicting the claim that such reads must fail. -/
theorem leaderboards_id_read_succeeds :
    isOkB (readResource ("blt://leaderboards/123") okApi).1 = true ∧
    (readResource ("blt://leaderboards/123") okApi).2 = [⟨"/leaderboards", "GET", none⟩] ∧
    isOkB (readResource ("blt://rewards/123") okApi).1 = true ∧
    (readResource ("blt://rewards/123") okApi).2 = [⟨"/rewards", "GET", none⟩] :=
  ⟨rfl, rfl, rfl, rfl⟩

/-- Witness for C8 at the identifier "123". -/
theorem collection_only_ignores_id_w :
    (readResource ("blt://leaderboards/" ++ ("123" : String)) okApi).2 =
      [⟨"/leaderboards", "GET", none⟩] ∧
    (readResource ("blt://rewards/" ++ ("123" : String)) okApi).2 =
      [⟨"/rewards", "GET", none⟩] ∧
    (∀ d, okApi ⟨"/leaderboards", "GET", none⟩ = .ok d →
      isOkB (readResource ("blt://leaderboards/" ++ ("123" : String)) okApi).1 = true) ∧
    (∀ d, okApi ⟨"/rewards", "GET", none⟩ = .ok d →
      isOkB (readResource ("blt://rewards/" ++ ("123" : String)) okApi).1 = true) :=
  collection_only_ignores_id ("123") okApi (by decide) (by decide)

/-- C10 counterexample to the unamended claim: " 7" contains whitespace,
which the safe-identifier validator rejects, yet plan_remediation trims
before validating, succeeds, and issues one lookup. -/
theorem padded_issue_id_not_rejected :
    isOkB (getPromptTr ("plan_remediation")
        [(("issue_id" : String), (" 7" : String))] okApi).1 = true ∧
    (getPromptTr ("plan_remediation")
        [(("issue_id" : String), (" 7" : String))] okApi).2 =
      [⟨"/issues/7", "GET", none⟩] ∧
    jsIsWs ' ' = true ∧ safeChar ' ' = false := by
  exact ⟨rfl, rfl, by decide, by decide⟩

set_option maxRecDepth 10000 in
/-- C9 counterexample to "appended verbatim": the context " x " is
appended as "x" — the rendered text contains the trimmed block and not
the verbatim one. -/
theorem plan_remediation_context_trimmed :
    strHasSub (firstMessageText (getPromptTr ("plan_remediation")
        [(("issue_id" : String), ("abc123" : String)),
         (("context" : String), (" x " : String))] failApi).1)
      ("\nAdditional Context:\nx\n") = true ∧
    strHasSub (firstMessageText (getPromptTr ("plan_remediation")
        [(("issue_id" : String), ("abc123" : String)),
         (("context" : String), (" x " : String))] failApi).1)
      ("\nAdditional Context:\n x \n") = false := by
  exact ⟨rfl, rfl⟩
